import Mathlib

/-!
Shallow embedding of `saleor/checkout/calculations.py` (the checkout price
recalculation engine) and proofs about it.

Conventions of the embedding:
* Python `Decimal` amounts are modelled as `ℚ`.  `quantize_price` (module
  `saleor.core.prices`, delegating to the `prices` library with its default
  `ROUND_HALF_UP` rounding) is modelled by `quantizeAmount` below: round the
  amount to the currency's minor-unit precision, ties away from zero.
* `TaxedMoney` from the `prices` library is a net/gross pair of amounts in one
  currency; the currency is carried once on the checkout, so the embedded
  `TaxedMoney` holds only the two amounts.  The library compares two
  `TaxedMoney` values by their gross amount (it defines `__lt__` on gross and
  Python reflects `>` to the other operand's `__lt__`), which is what the
  builtin `max` in `calculate_checkout_total_with_gift_cards` uses.
* Database writes and collaborator invocations are recorded in an explicit
  effect trace returned next to the new state.
* Fallible operations (`next` on an empty iterator, `Decimal` division by
  zero) are modelled with `Option`.
-/

/-- A currency, reduced to what the engine consumes: the number of decimal
digits of its minor unit (`get_currency_precision`). -/
structure Currency where
  exp : ℕ
  deriving DecidableEq

/-- `Decimal.quantize` with `ROUND_HALF_UP`: nearest integer, ties away from
zero. -/
def roundHalfUp (q : ℚ) : ℤ :=
  if 0 ≤ q then ⌊q + 1 / 2⌋ else -⌊-q + 1 / 2⌋

/-- Quantize an amount to `e` decimal places, rounding half up (the default
rounding of the `prices` library used by `quantize_price`). -/
def quantizeAmount (e : ℕ) (q : ℚ) : ℚ :=
  (roundHalfUp (q * 10 ^ e) : ℚ) / 10 ^ e

/-- The `prices` library `TaxedMoney`: a net and a gross amount sharing the
checkout currency. -/
structure TaxedMoney where
  net : ℚ
  gross : ℚ
  deriving DecidableEq

/-- `TaxedMoney.__add__`: componentwise addition. -/
def addTM (a b : TaxedMoney) : TaxedMoney :=
  ⟨a.net + b.net, a.gross + b.gross⟩

/-- `TaxedMoney.__sub__` with a `Money` argument: subtract the amount from
both components. -/
def subMoney (a : TaxedMoney) (amount : ℚ) : TaxedMoney :=
  ⟨a.net - amount, a.gross - amount⟩

/-- `TaxedMoney.__truediv__` by an integer scalar: divide both components. -/
def divTM (a : TaxedMoney) (n : ℕ) : TaxedMoney :=
  ⟨a.net / (n : ℚ), a.gross / (n : ℚ)⟩

/-- The `prices` library orders `TaxedMoney` by gross amount (`__lt__`). -/
def ltTM (a b : TaxedMoney) : Prop :=
  a.gross < b.gross

instance (a b : TaxedMoney) : Decidable (ltTM a b) := by
  unfold ltTM; infer_instance

/-- Python `max(a, b)`: returns `b` only when `b > a`, which for `TaxedMoney`
reflects to `a.__lt__(b)`, a gross-amount comparison. -/
def pyMaxTM (a b : TaxedMoney) : TaxedMoney :=
  if ltTM a b then b else a

/-- `zero_taxed_money(currency)`. -/
def zero_taxed_money : TaxedMoney := ⟨0, 0⟩

/-- `quantize_price` on a `TaxedMoney`: net and gross are quantized
independently to the currency precision. -/
def quantize_price (c : Currency) (m : TaxedMoney) : TaxedMoney :=
  ⟨quantizeAmount c.exp m.net, quantizeAmount c.exp m.gross⟩

/-- A checkout line (`CheckoutLine` model): the fields read or written by the
engine.  `pk` identifies the line (`line.pk`), `quantity` its quantity;
`total_price_net_amount`/`total_price_gross_amount` back the `total_price`
`TaxedMoney` property; `tax_rate` is the stored tax rate. -/
structure CheckoutLine where
  pk : ℕ
  quantity : ℕ
  total_price_net_amount : ℚ
  total_price_gross_amount : ℚ
  tax_rate : ℚ
  deriving DecidableEq

/-- The `total_price` property of a line. -/
def CheckoutLine.total_price (l : CheckoutLine) : TaxedMoney :=
  ⟨l.total_price_net_amount, l.total_price_gross_amount⟩

/-- Write the `total_price` property of a line. -/
def CheckoutLine.setTotalPrice (l : CheckoutLine) (m : TaxedMoney) : CheckoutLine :=
  { l with total_price_net_amount := m.net, total_price_gross_amount := m.gross }

/-- The `Checkout` model: the fields read or written by the engine.
`gift_cards_balance` models `Checkout.get_total_gift_cards_balance()` (a
`Money` amount); that method is not part of this module, so per the spec it
is the checkout's total gift-card balance, kept as data. -/
structure Checkout where
  currency : Currency
  tax_exemption : Bool
  price_expiration : ℤ
  total_net_amount : ℚ
  total_gross_amount : ℚ
  subtotal_net_amount : ℚ
  subtotal_gross_amount : ℚ
  shipping_price_net_amount : ℚ
  shipping_price_gross_amount : ℚ
  shipping_tax_rate : ℚ
  gift_cards_balance : ℚ
  deriving DecidableEq

/-- The `total` property of a checkout. -/
def Checkout.total (c : Checkout) : TaxedMoney :=
  ⟨c.total_net_amount, c.total_gross_amount⟩

/-- The `subtotal` property of a checkout. -/
def Checkout.subtotal (c : Checkout) : TaxedMoney :=
  ⟨c.subtotal_net_amount, c.subtotal_gross_amount⟩

/-- The `shipping_price` property of a checkout. -/
def Checkout.shipping_price (c : Checkout) : TaxedMoney :=
  ⟨c.shipping_price_net_amount, c.shipping_price_gross_amount⟩

/-- Write the `total` property. -/
def Checkout.setTotal (c : Checkout) (m : TaxedMoney) : Checkout :=
  { c with total_net_amount := m.net, total_gross_amount := m.gross }

/-- Write the `subtotal` property. -/
def Checkout.setSubtotal (c : Checkout) (m : TaxedMoney) : Checkout :=
  { c with subtotal_net_amount := m.net, subtotal_gross_amount := m.gross }

/-- Write the `shipping_price` property. -/
def Checkout.setShippingPrice (c : Checkout) (m : TaxedMoney) : Checkout :=
  { c with shipping_price_net_amount := m.net, shipping_price_gross_amount := m.gross }

/-- One line entry of a consolidated `TaxData` payload
(`saleor.core.taxes.TaxLineData`). -/
structure TaxLineData where
  total_net_amount : ℚ
  total_gross_amount : ℚ
  tax_rate : ℚ
  deriving DecidableEq

/-- The consolidated `TaxData` payload returned by
`manager.get_taxes_for_checkout`; `Option TaxData` models the nullable
return (`if not tax_data: return`, and a `TaxData` instance is always
truthy). -/
structure TaxData where
  shipping_price_net_amount : ℚ
  shipping_price_gross_amount : ℚ
  shipping_tax_rate : ℚ
  lines : List TaxLineData
  deriving DecidableEq

/-- Observable side effects of a `fetch_checkout_prices_if_expired` call:
collaborator invocations (tax app plugins, flat-rate engine, base price
provider) and the database write (`checkout.save` + `lines.bulk_update`). -/
inductive Effect where
  | taxAppCall
  | flatRatesCall
  | basePriceCall
  | dbWrite
  deriving DecidableEq

/-- The plugin manager's per-checkout collaborator interface
(`PluginsManager`, not part of this module).  Each function is a black box
reading the current checkout and line states (the Python calls receive the
`checkout_info`/`lines` views, which wrap exactly that state, plus the
address/discount context that is fixed for the duration of one call and is
therefore absorbed into the closures).  Line-level calls additionally
receive the index of the `line_info` argument. -/
structure Plugins where
  calculate_checkout_line_total : Checkout → List CheckoutLine → ℕ → TaxedMoney
  calculate_checkout_line_unit_price : Checkout → List CheckoutLine → ℕ → TaxedMoney
  get_checkout_line_tax_rate : Checkout → List CheckoutLine → ℕ → TaxedMoney → ℚ
  calculate_checkout_shipping : Checkout → List CheckoutLine → TaxedMoney
  get_checkout_shipping_tax_rate : Checkout → List CheckoutLine → TaxedMoney → ℚ
  calculate_checkout_subtotal : Checkout → List CheckoutLine → TaxedMoney
  calculate_checkout_total : Checkout → List CheckoutLine → TaxedMoney
  get_taxes_for_checkout : Checkout → List CheckoutLine → Option TaxData

/-- Modelled from the spec: the plugin manager's per-call price functions
(`taxProvider.lineTotal`, `lineUnit`, `shippingPrice`, `subtotal`, `total`)
live in `saleor/plugins/manager.py`, which is not part of this module; per
the spec's rounding rule (every monetary value is quantized to the
currency's minor-unit precision immediately before being returned) the
manager quantizes the underlying plugin result before handing it back. -/
def managerLineTotal (P : Plugins) (cur : Currency) (c : Checkout)
    (lines : List CheckoutLine) (i : ℕ) : TaxedMoney :=
  quantize_price cur (P.calculate_checkout_line_total c lines i)

/-- Modelled from the spec: quantized per-call line unit price (see
`managerLineTotal`). -/
def managerLineUnitPrice (P : Plugins) (cur : Currency) (c : Checkout)
    (lines : List CheckoutLine) (i : ℕ) : TaxedMoney :=
  quantize_price cur (P.calculate_checkout_line_unit_price c lines i)

/-- Modelled from the spec: quantized per-call shipping price (see
`managerLineTotal`). -/
def managerShipping (P : Plugins) (cur : Currency) (c : Checkout)
    (lines : List CheckoutLine) : TaxedMoney :=
  quantize_price cur (P.calculate_checkout_shipping c lines)

/-- Modelled from the spec: quantized per-call subtotal (see
`managerLineTotal`). -/
def managerSubtotal (P : Plugins) (cur : Currency) (c : Checkout)
    (lines : List CheckoutLine) : TaxedMoney :=
  quantize_price cur (P.calculate_checkout_subtotal c lines)

/-- Modelled from the spec: quantized per-call total (see
`managerLineTotal`). -/
def managerTotal (P : Plugins) (cur : Currency) (c : Checkout)
    (lines : List CheckoutLine) : TaxedMoney :=
  quantize_price cur (P.calculate_checkout_total c lines)

/-- The base price provider (`saleor.checkout.base_calculations`, consumed
as a black box per the spec): tax-free `Money` amounts for line totals, line
unit prices, the delivery price and the discounted checkout total.
Line-level functions receive the current lines and the index of the
`line_info` argument; channel/discount context is absorbed into the
closures. -/
structure BasePriceProvider where
  calculate_base_line_total_price : List CheckoutLine → ℕ → ℚ
  calculate_base_line_unit_price : List CheckoutLine → ℕ → ℚ
  base_checkout_delivery_price : Checkout → List CheckoutLine → ℚ
  base_checkout_total : Checkout → List CheckoutLine → ℚ

/-- The flat-rate engine's per-item rate-table results: for a line index,
and for shipping, the net amount, gross amount and tax rate produced from
the configured tax-class rates. -/
structure FlatRateEngine where
  linePrice : Checkout → List CheckoutLine → ℕ → ℚ × ℚ × ℚ
  shippingPrice : Checkout → List CheckoutLine → ℚ × ℚ × ℚ

/-- The ambient collaborators and configuration of one recomputation call:
`now`/`ttl` stand for `timezone.now()` and `settings.CHECKOUT_PRICES_TTL`
(the body reads the clock twice; the two reads are identified here);
`strategy` is the result of `get_tax_calculation_strategy_for_checkout` and
`chargeTaxes` of `get_charge_taxes_for_checkout` (both external tax utils);
`pricesEnteredWithTax` is `tax_configuration.prices_entered_with_tax`;
`normalizeTaxRate` models `normalize_tax_rate_for_db` and
`calculateTaxRate` models `calculate_tax_rate` (external tax utils, black
boxes). -/
structure Env where
  now : ℤ
  ttl : ℤ
  strategy : String
  chargeTaxes : Bool
  pricesEnteredWithTax : Bool
  plugins : Plugins
  base : BasePriceProvider
  flat : FlatRateEngine
  normalizeTaxRate : ℚ → ℚ
  calculateTaxRate : TaxedMoney → ℚ

/-- `TaxCalculationStrategy.TAX_APP`. -/
def TAX_APP : String := "TAX_APP"

/-- `TaxCalculationStrategy.FLAT_RATES`. -/
def FLAT_RATES : String := "FLAT_RATES"

/-- `_remove_tax` (lines 358-367): overwrite every gross amount with its net
counterpart and zero the shipping and line tax rates. -/
def _remove_tax (c : Checkout) (lines : List CheckoutLine) :
    Checkout × List CheckoutLine :=
  let c1 := { c with
    total_gross_amount := c.total_net_amount,
    subtotal_gross_amount := c.subtotal_net_amount,
    shipping_price_gross_amount := c.shipping_price_net_amount,
    shipping_tax_rate := 0 }
  (c1, lines.map fun l =>
    { l with total_price_gross_amount := l.total_price_net_amount, tax_rate := 0 })

/-- `_calculate_checkout_subtotal` (lines 378-384): quantized sum of the
line total prices, starting from `zero_taxed_money`. -/
def _calculate_checkout_subtotal (lines : List CheckoutLine) (cur : Currency) :
    TaxedMoney :=
  quantize_price cur (lines.foldl (fun acc l => addTM acc l.total_price) zero_taxed_money)

/-- `_calculate_checkout_total` (lines 370-375): quantized subtotal plus
shipping price. -/
def _calculate_checkout_total (c : Checkout) (cur : Currency) : TaxedMoney :=
  quantize_price cur (addTM c.subtotal c.shipping_price)

/-- The body of the `zip(lines, tax_data.lines)` loop of `_apply_tax_data`
for one pairing: quantized total price from the tax line data, tax rate
through `normalize_tax_rate_for_db`. -/
def applyTaxDataLine (norm : ℚ → ℚ) (cur : Currency) (e : TaxLineData)
    (l : CheckoutLine) : CheckoutLine :=
  { l with
    total_price_net_amount := quantizeAmount cur.exp e.total_net_amount,
    total_price_gross_amount := quantizeAmount cur.exp e.total_gross_amount,
    tax_rate := norm e.tax_rate }

/-- The `zip(lines, tax_data.lines)` loop of `_apply_tax_data`: `zip`
truncates to the shorter sequence and the loop mutates the paired lines in
place, so the paired prefix is rewritten and any leftover lines keep their
values. -/
def applyTaxDataLines (norm : ℚ → ℚ) (cur : Currency) :
    List CheckoutLine → List TaxLineData → List CheckoutLine
  | [], _ => []
  | ls, [] => ls
  | l :: ls, e :: es => applyTaxDataLine norm cur e l :: applyTaxDataLines norm cur ls es

/-- `_apply_tax_data` (lines 387-417): no-op when the payload is absent;
otherwise rewrite the zipped lines, set shipping price and shipping tax rate
from the payload, then recompute subtotal (sum of line totals) and total
(subtotal plus shipping). -/
def _apply_tax_data (norm : ℚ → ℚ) (c : Checkout) (lines : List CheckoutLine)
    (td : Option TaxData) : Checkout × List CheckoutLine :=
  match td with
  | none => (c, lines)
  | some td =>
    let cur := c.currency
    let lines1 := applyTaxDataLines norm cur lines td.lines
    let c1 := { c with shipping_tax_rate := norm td.shipping_tax_rate }
    let c2 := c1.setShippingPrice (quantize_price cur
      ⟨td.shipping_price_net_amount, td.shipping_price_gross_amount⟩)
    let c3 := c2.setSubtotal (_calculate_checkout_subtotal lines1 cur)
    let c4 := c3.setTotal (_calculate_checkout_total c3 cur)
    (c4, lines1)

/-- The per-line loop of `_apply_tax_data_from_plugins` (lines 431-458):
iterate over the lines, mutating each in place, so a plugin call made while
processing line `i` observes the already-updated lines `0..i-1`.  `done` is
the processed prefix, the current line is `done.length`. -/
def pluginsLineLoop (P : Plugins) (cur : Currency) (c : Checkout)
    (done : List CheckoutLine) : List CheckoutLine → List CheckoutLine
  | [] => done
  | l :: rest =>
    let current := done ++ l :: rest
    let i := done.length
    let total := managerLineTotal P cur c current i
    let l1 := l.setTotalPrice total
    let current1 := done ++ l1 :: rest
    let unit := managerLineUnitPrice P cur c current1 i
    let l2 := { l1 with tax_rate := P.get_checkout_line_tax_rate c current1 i unit }
    pluginsLineLoop P cur c (done ++ [l2]) rest

/-- `_apply_tax_data_from_plugins` (lines 420-471): per-call plugin values
for every line, then shipping price, shipping tax rate (receiving the
just-set shipping price), subtotal and total straight from the manager. -/
def _apply_tax_data_from_plugins (P : Plugins) (c : Checkout)
    (lines : List CheckoutLine) : Checkout × List CheckoutLine :=
  let cur := c.currency
  let lines1 := pluginsLineLoop P cur c [] lines
  let c1 := c.setShippingPrice (managerShipping P cur c lines1)
  let c2 := { c1 with
    shipping_tax_rate := P.get_checkout_shipping_tax_rate c1 lines1 c1.shipping_price }
  let c3 := c2.setSubtotal (managerSubtotal P cur c2 lines1)
  let c4 := c3.setTotal (managerTotal P cur c3 lines1)
  (c4, lines1)

/-- Modelled from the spec: `update_checkout_prices_with_flat_rates`
(`saleor/tax/calculations/checkout.py`, not part of this module).  Per the
spec's flat-rate strategy and rounding rule it produces net and gross for
every line and for shipping directly from the configured rate tables
(quantized), and per the spec's total identity for the flat-rate path it
sets `subtotal` to the sum of the line totals and `total` to the quantized
sum of subtotal and shipping price.  The `prices_entered_with_tax` flag and
address/discount context are absorbed into the engine's closures. -/
def update_checkout_prices_with_flat_rates (F : FlatRateEngine) (c : Checkout)
    (lines : List CheckoutLine) : Checkout × List CheckoutLine :=
  let cur := c.currency
  let lines1 := (List.range lines.length).zipWith (fun i l =>
    let r := F.linePrice c lines i
    { l with
      total_price_net_amount := quantizeAmount cur.exp r.1,
      total_price_gross_amount := quantizeAmount cur.exp r.2.1,
      tax_rate := r.2.2 }) lines
  let s := F.shippingPrice c lines
  let c1 := c.setShippingPrice (quantize_price cur ⟨s.1, s.2.1⟩)
  let c2 := { c1 with shipping_tax_rate := s.2.2 }
  let c3 := c2.setSubtotal (_calculate_checkout_subtotal lines1 cur)
  let c4 := c3.setTotal (_calculate_checkout_total c3 cur)
  (c4, lines1)

/-- `_calculate_and_add_tax` (lines 333-355): dispatch on the resolved tax
calculation strategy; `TAX_APP` runs the per-call plugin pass and then
applies the consolidated `TaxData` (if any), `FLAT_RATES` delegates to the
flat-rate engine, and any other strategy falls through the `if`/`elif` with
no `else`, leaving the state untouched. -/
def _calculate_and_add_tax (env : Env) (c : Checkout) (lines : List CheckoutLine) :
    Checkout × List CheckoutLine :=
  if env.strategy = TAX_APP then
    let p := _apply_tax_data_from_plugins env.plugins c lines
    let tax_data := env.plugins.get_taxes_for_checkout p.1 p.2
    _apply_tax_data env.normalizeTaxRate p.1 p.2 tax_data
  else if env.strategy = FLAT_RATES then
    update_checkout_prices_with_flat_rates env.flat c lines
  else
    (c, lines)

/-- The per-line loop of `_get_checkout_base_prices` (lines 485-503): base
line total (stored with gross = net, quantized), then the base unit price
feeding `calculate_tax_rate`.  As in `pluginsLineLoop`, mutation is in
place: `done` is the processed prefix. -/
def basePricesLineLoop (B : BasePriceProvider) (ctr : TaxedMoney → ℚ)
    (cur : Currency) (done : List CheckoutLine) :
    List CheckoutLine → List CheckoutLine
  | [] => done
  | l :: rest =>
    let current := done ++ l :: rest
    let i := done.length
    let tp := B.calculate_base_line_total_price current i
    let l1 := l.setTotalPrice (quantize_price cur ⟨tp, tp⟩)
    let current1 := done ++ l1 :: rest
    let up := B.calculate_base_line_unit_price current1 i
    let unit := quantize_price cur ⟨up, up⟩
    let l2 := { l1 with tax_rate := ctr unit }
    basePricesLineLoop B ctr cur (done ++ [l2]) rest

/-- The state of `_get_checkout_base_prices` just before the final
`base_checkout_total` call (lines 485-516): lines and shipping set from the
base provider, subtotal set to the plain (unquantized) sum of the line
total prices. -/
def baseStateBeforeTotal (B : BasePriceProvider) (ctr : TaxedMoney → ℚ)
    (c : Checkout) (lines : List CheckoutLine) : Checkout × List CheckoutLine :=
  let cur := c.currency
  let lines1 := basePricesLineLoop B ctr cur [] lines
  let sp := B.base_checkout_delivery_price c lines1
  let c1 := c.setShippingPrice (quantize_price cur ⟨sp, sp⟩)
  let c2 := { c1 with shipping_tax_rate := ctr c1.shipping_price }
  let c3 := c2.setSubtotal
    (lines1.foldl (fun acc l => addTM acc l.total_price) zero_taxed_money)
  (c3, lines1)

/-- `_get_checkout_base_prices` (lines 474-523): the tax-free path; after
`baseStateBeforeTotal`, the total is the quantized discounted checkout
total of the base provider (net = gross). -/
def _get_checkout_base_prices (B : BasePriceProvider) (ctr : TaxedMoney → ℚ)
    (c : Checkout) (lines : List CheckoutLine) : Checkout × List CheckoutLine :=
  let cur := c.currency
  let p := baseStateBeforeTotal B ctr c lines
  let t := B.base_checkout_total p.1 p.2
  (p.1.setTotal (quantize_price cur ⟨t, t⟩), p.2)

/-- The recomputation branch of `fetch_checkout_prices_if_expired` (lines
255-299): strategy/charge resolution and the four-way dispatch of the
decision table. -/
def recomputeCore (env : Env) (c : Checkout) (lines : List CheckoutLine) :
    Checkout × List CheckoutLine :=
  let should_charge_tax := env.chargeTaxes && !c.tax_exemption
  if env.pricesEnteredWithTax then
    let p := _calculate_and_add_tax env c lines
    if !should_charge_tax then _remove_tax p.1 p.2 else p
  else
    if should_charge_tax then _calculate_and_add_tax env c lines
    else _get_checkout_base_prices env.base env.calculateTaxRate c lines

/-- The collaborator invocations a strategy dispatch performs. -/
def strategyEffects (env : Env) : List Effect :=
  if env.strategy = TAX_APP then [Effect.taxAppCall]
  else if env.strategy = FLAT_RATES then [Effect.flatRatesCall]
  else []

/-- The collaborator invocations of the recomputation branch. -/
def recomputeEffects (env : Env) (c : Checkout) : List Effect :=
  let should_charge_tax := env.chargeTaxes && !c.tax_exemption
  if env.pricesEnteredWithTax then strategyEffects env
  else if should_charge_tax then strategyEffects env
  else [Effect.basePriceCall]

/-- Result of `fetch_checkout_prices_if_expired`: the returned
checkout/lines pair (`checkout_info`'s wrapped checkout) and the effect
trace of the call. -/
structure FetchResult where
  checkout : Checkout
  lines : List CheckoutLine
  effects : List Effect
  deriving DecidableEq

/-- `fetch_checkout_prices_if_expired` (lines 233-330): return the inputs
unchanged (no collaborator call, no write) while the cache is fresh and no
update is forced; otherwise recompute, push `price_expiration` to
`now + CHECKOUT_PRICES_TTL`, and persist (`checkout.save` and
`checkout.lines.bulk_update`, the trailing `dbWrite`). -/
def fetch_checkout_prices_if_expired (env : Env) (c : Checkout)
    (lines : List CheckoutLine) (force_update : Bool) : FetchResult :=
  if force_update = false ∧ env.now < c.price_expiration then
    ⟨c, lines, []⟩
  else
    let p := recomputeCore env c lines
    ⟨{ p.1 with price_expiration := env.now + env.ttl }, p.2,
      recomputeEffects env c ++ [Effect.dbWrite]⟩

/-- `checkout_total` (lines 117-140): ensure freshness, then return the
quantized checkout total. -/
def checkout_total (env : Env) (c : Checkout) (lines : List CheckoutLine) :
    TaxedMoney :=
  let r := fetch_checkout_prices_if_expired env c lines false
  quantize_price c.currency r.checkout.total

/-- `calculate_checkout_total_with_gift_cards` (lines 96-114): the fresh
total minus the checkout's total gift-card balance, clamped by Python's
`max` against `zero_taxed_money` (a gross-amount comparison). -/
def calculate_checkout_total_with_gift_cards (env : Env) (c : Checkout)
    (lines : List CheckoutLine) : TaxedMoney :=
  let total := subMoney (checkout_total env c lines) c.gift_cards_balance
  pyMaxTM total zero_taxed_money

/-- `_find_checkout_line_info` (lines 143-155): first line with the given
primary key; `next` on an exhausted iterator raises, modelled as `none`. -/
def _find_checkout_line_info (lines : List CheckoutLine) (pk : ℕ) :
    Option CheckoutLine :=
  lines.find? fun l => l.pk = pk

/-- `checkout_line_unit_price` (lines 183-206): ensure freshness, find the
updated line, divide its total price by its quantity (a `Decimal` division
that raises on a zero quantity, modelled as `none`), and quantize. -/
def checkout_line_unit_price (env : Env) (c : Checkout)
    (lines : List CheckoutLine) (pk : ℕ) : Option TaxedMoney :=
  let r := fetch_checkout_prices_if_expired env c lines false
  match _find_checkout_line_info r.lines pk with
  | none => none
  | some line =>
    if line.quantity = 0 then none
    else some (quantize_price c.currency (divTM line.total_price line.quantity))

/-- `checkout_shipping_price` (lines 28-48): ensure freshness, then return
the quantized checkout shipping price. -/
def checkout_shipping_price (env : Env) (c : Checkout)
    (lines : List CheckoutLine) : TaxedMoney :=
  let r := fetch_checkout_prices_if_expired env c lines false
  quantize_price c.currency r.checkout.shipping_price

/-- `checkout_subtotal` (lines 73-93): ensure freshness, then return the
quantized checkout subtotal. -/
def checkout_subtotal (env : Env) (c : Checkout)
    (lines : List CheckoutLine) : TaxedMoney :=
  let r := fetch_checkout_prices_if_expired env c lines false
  quantize_price c.currency r.checkout.subtotal

/-- `checkout_line_total` (lines 158-180): ensure freshness, find the
updated line by primary key (`next` raises when absent, modelled as
`none`), and return its quantized total price. -/
def checkout_line_total (env : Env) (c : Checkout)
    (lines : List CheckoutLine) (pk : ℕ) : Option TaxedMoney :=
  let r := fetch_checkout_prices_if_expired env c lines false
  match _find_checkout_line_info r.lines pk with
  | none => none
  | some line => some (quantize_price c.currency line.total_price)

/-- An amount already expressed in the currency's minor units: an integer
number of `10 ^ (-e)` steps. -/
def IsQuantized (e : ℕ) (q : ℚ) : Prop :=
  ∃ n : ℤ, q = (n : ℚ) / 10 ^ e

/-- A `TaxedMoney` that quantization leaves unchanged, componentwise. -/
def QuantizedTM (cur : Currency) (m : TaxedMoney) : Prop :=
  quantize_price cur m = m

theorem roundHalfUp_intCast (n : ℤ) : roundHalfUp (n : ℚ) = n := by
  unfold roundHalfUp
  rcases le_or_lt 0 (n : ℚ) with h | h
  · rw [if_pos h, Int.floor_int_add]
    norm_num
  · rw [if_neg (not_le.mpr h)]
    have hcast : -(n : ℚ) + 1 / 2 = ((-n : ℤ) : ℚ) + 1 / 2 := by push_cast; ring
    rw [hcast, Int.floor_int_add]
    norm_num

theorem quantizeAmount_of_isQuantized {e : ℕ} {q : ℚ} (h : IsQuantized e q) :
    quantizeAmount e q = q := by
  obtain ⟨n, rfl⟩ := h
  have h10 : ((10 : ℚ) ^ e) ≠ 0 := by positivity
  unfold quantizeAmount
  rw [div_mul_cancel₀ _ h10, roundHalfUp_intCast]

theorem isQuantized_quantizeAmount (e : ℕ) (q : ℚ) :
    IsQuantized e (quantizeAmount e q) :=
  ⟨roundHalfUp (q * 10 ^ e), rfl⟩

theorem quantizeAmount_idem (e : ℕ) (q : ℚ) :
    quantizeAmount e (quantizeAmount e q) = quantizeAmount e q :=
  quantizeAmount_of_isQuantized (isQuantized_quantizeAmount e q)

theorem IsQuantized.add {e : ℕ} {a b : ℚ} (ha : IsQuantized e a)
    (hb : IsQuantized e b) : IsQuantized e (a + b) := by
  obtain ⟨n, rfl⟩ := ha
  obtain ⟨m, rfl⟩ := hb
  exact ⟨n + m, by push_cast; rw [div_add_div_same]⟩

theorem isQuantized_zero (e : ℕ) : IsQuantized e 0 :=
  ⟨0, by simp⟩

theorem isQuantized_of_fix {e : ℕ} {q : ℚ} (h : quantizeAmount e q = q) :
    IsQuantized e q :=
  h ▸ isQuantized_quantizeAmount e q

theorem quantizedTM_iff {cur : Currency} {m : TaxedMoney} :
    QuantizedTM cur m ↔ IsQuantized cur.exp m.net ∧ IsQuantized cur.exp m.gross := by
  constructor
  · intro h
    have hn : quantizeAmount cur.exp m.net = m.net := congrArg TaxedMoney.net h
    have hg : quantizeAmount cur.exp m.gross = m.gross := congrArg TaxedMoney.gross h
    exact ⟨isQuantized_of_fix hn, isQuantized_of_fix hg⟩
  · rintro ⟨hn, hg⟩
    unfold QuantizedTM quantize_price
    rw [quantizeAmount_of_isQuantized hn, quantizeAmount_of_isQuantized hg]

theorem quantizedTM_quantize_price (cur : Currency) (m : TaxedMoney) :
    QuantizedTM cur (quantize_price cur m) :=
  quantizedTM_iff.mpr
    ⟨isQuantized_quantizeAmount _ _, isQuantized_quantizeAmount _ _⟩

theorem quantize_price_idem (cur : Currency) (m : TaxedMoney) :
    quantize_price cur (quantize_price cur m) = quantize_price cur m :=
  quantizedTM_quantize_price cur m

theorem quantizedTM_addTM {cur : Currency} {a b : TaxedMoney}
    (ha : QuantizedTM cur a) (hb : QuantizedTM cur b) :
    QuantizedTM cur (addTM a b) := by
  rw [quantizedTM_iff] at ha hb ⊢
  exact ⟨ha.1.add hb.1, ha.2.add hb.2⟩

theorem quantizedTM_zero (cur : Currency) : QuantizedTM cur zero_taxed_money :=
  quantizedTM_iff.mpr ⟨isQuantized_zero _, isQuantized_zero _⟩

theorem total_price_setTotalPrice (l : CheckoutLine) (m : TaxedMoney) :
    (l.setTotalPrice m).total_price = m := rfl

theorem quantizedTM_foldl_addTM (cur : Currency) (lines : List CheckoutLine) :
    ∀ acc : TaxedMoney, QuantizedTM cur acc →
      (∀ l ∈ lines, QuantizedTM cur l.total_price) →
      QuantizedTM cur (lines.foldl (fun a l => addTM a l.total_price) acc) := by
  induction lines with
  | nil => intro acc hacc _; simpa using hacc
  | cons l ls ih =>
    intro acc hacc hl
    simp only [List.foldl_cons]
    exact ih _ (quantizedTM_addTM hacc (hl l (by simp)))
      fun x hx => hl x (by simp [hx])

theorem net_eq_gross_foldl_addTM (lines : List CheckoutLine) :
    ∀ acc : TaxedMoney, acc.net = acc.gross →
      (∀ l ∈ lines, l.total_price_net_amount = l.total_price_gross_amount) →
      (lines.foldl (fun a l => addTM a l.total_price) acc).net =
        (lines.foldl (fun a l => addTM a l.total_price) acc).gross := by
  induction lines with
  | nil => intro acc hacc _; simpa using hacc
  | cons l ls ih =>
    intro acc hacc hl
    simp only [List.foldl_cons]
    refine ih _ ?_ fun x hx => hl x (by simp [hx])
    simp only [addTM, CheckoutLine.total_price, hacc, hl l (by simp)]

theorem pluginsLineLoop_total_quantized (P : Plugins) (cur : Currency)
    (c : Checkout) :
    ∀ (rest done : List CheckoutLine),
      (∀ l ∈ done, QuantizedTM cur l.total_price) →
      ∀ l ∈ pluginsLineLoop P cur c done rest, QuantizedTM cur l.total_price := by
  intro rest
  induction rest with
  | nil => intro done hdone l hl; exact hdone l hl
  | cons x xs ih =>
    intro done hdone l hl
    refine ih _ ?_ l hl
    intro y hy
    rcases List.mem_append.mp hy with hy | hy
    · exact hdone y hy
    · have hy' : y = { x.setTotalPrice (managerLineTotal P cur c
          (done ++ x :: xs) done.length) with
          tax_rate := P.get_checkout_line_tax_rate c
            (done ++ x.setTotalPrice (managerLineTotal P cur c
              (done ++ x :: xs) done.length) :: xs) done.length
            (managerLineUnitPrice P cur c
              (done ++ x.setTotalPrice (managerLineTotal P cur c
                (done ++ x :: xs) done.length) :: xs) done.length) } := by
        simpa using hy
      subst hy'
      show QuantizedTM cur _
      have : ∀ (l1 : CheckoutLine) (r : ℚ),
          ({ l1 with tax_rate := r } : CheckoutLine).total_price = l1.total_price :=
        fun l1 r => rfl
      rw [this, total_price_setTotalPrice]
      exact quantizedTM_quantize_price cur _

theorem basePricesLineLoop_total_shape (B : BasePriceProvider)
    (ctr : TaxedMoney → ℚ) (cur : Currency) :
    ∀ (rest done : List CheckoutLine),
      (∀ l ∈ done, QuantizedTM cur l.total_price ∧
        l.total_price_net_amount = l.total_price_gross_amount) →
      ∀ l ∈ basePricesLineLoop B ctr cur done rest,
        QuantizedTM cur l.total_price ∧
          l.total_price_net_amount = l.total_price_gross_amount := by
  intro rest
  induction rest with
  | nil => intro done hdone l hl; exact hdone l hl
  | cons x xs ih =>
    intro done hdone l hl
    refine ih _ ?_ l hl
    intro y hy
    rcases List.mem_append.mp hy with hy | hy
    · exact hdone y hy
    · have hy' : y = { x.setTotalPrice (quantize_price cur
          ⟨B.calculate_base_line_total_price (done ++ x :: xs) done.length,
            B.calculate_base_line_total_price (done ++ x :: xs) done.length⟩) with
          tax_rate := ctr (quantize_price cur
            ⟨B.calculate_base_line_unit_price
              (done ++ x.setTotalPrice (quantize_price cur
                ⟨B.calculate_base_line_total_price (done ++ x :: xs) done.length,
                  B.calculate_base_line_total_price (done ++ x :: xs) done.length⟩) :: xs)
              done.length,
              B.calculate_base_line_unit_price
              (done ++ x.setTotalPrice (quantize_price cur
                ⟨B.calculate_base_line_total_price (done ++ x :: xs) done.length,
                  B.calculate_base_line_total_price (done ++ x :: xs) done.length⟩) :: xs)
              done.length⟩) } := by
        simpa using hy
      subst hy'
      have hrate : ∀ (l1 : CheckoutLine) (r : ℚ),
          ({ l1 with tax_rate := r } : CheckoutLine).total_price = l1.total_price :=
        fun l1 r => rfl
      constructor
      · show QuantizedTM cur _
        rw [hrate, total_price_setTotalPrice]
        exact quantizedTM_quantize_price cur _
      · show (quantizeAmount cur.exp _ : ℚ) = quantizeAmount cur.exp _
        rfl

theorem applyTaxDataLines_length (norm : ℚ → ℚ) (cur : Currency) :
    ∀ (ls : List CheckoutLine) (es : List TaxLineData),
      (applyTaxDataLines norm cur ls es).length = ls.length := by
  intro ls
  induction ls with
  | nil => intro es; cases es <;> rfl
  | cons l ls ih =>
    intro es
    cases es with
    | nil => rfl
    | cons e es => simp [applyTaxDataLines, ih]

theorem applyTaxDataLines_getElem (norm : ℚ → ℚ) (cur : Currency) :
    ∀ (ls : List CheckoutLine) (es : List TaxLineData) (i : ℕ),
      (applyTaxDataLines norm cur ls es)[i]? =
        match ls[i]?, es[i]? with
        | some l, some e => some (applyTaxDataLine norm cur e l)
        | some l, none => some l
        | none, _ => none := by
  intro ls
  induction ls with
  | nil =>
    intro es i
    cases es <;> simp [applyTaxDataLines]
  | cons l ls ih =>
    intro es i
    cases es with
    | nil =>
      show (l :: ls)[i]? = _
      cases h : (l :: ls)[i]? <;> simp [h]
    | cons e es =>
      cases i with
      | zero => simp [applyTaxDataLines]
      | succ i => simpa [applyTaxDataLines] using ih es i

/-- Sample plugin collaborators for instantiating theorems on concrete
inputs; the consolidated call returns no `TaxData`. -/
def samplePlugins : Plugins where
  calculate_checkout_line_total := fun _ _ _ => ⟨10, 12⟩
  calculate_checkout_line_unit_price := fun _ _ _ => ⟨5, 6⟩
  get_checkout_line_tax_rate := fun _ _ _ _ => 1 / 5
  calculate_checkout_shipping := fun _ _ => ⟨3, 4⟩
  get_checkout_shipping_tax_rate := fun _ _ _ => 1 / 5
  calculate_checkout_subtotal := fun _ _ => ⟨10, 12⟩
  calculate_checkout_total := fun _ _ => ⟨13, 16⟩
  get_taxes_for_checkout := fun _ _ => none

/-- Sample base price provider: line total 10, unit 5, shipping 5, and a
discounted checkout total of 3 (a checkout-level discount of 12). -/
def sampleBase : BasePriceProvider where
  calculate_base_line_total_price := fun _ _ => 10
  calculate_base_line_unit_price := fun _ _ => 5
  base_checkout_delivery_price := fun _ _ => 5
  base_checkout_total := fun _ _ => 3

/-- Sample base price provider without a checkout-level discount: the
checkout total is the line total plus shipping. -/
def sampleBase2 : BasePriceProvider where
  calculate_base_line_total_price := fun _ _ => 10
  calculate_base_line_unit_price := fun _ _ => 5
  base_checkout_delivery_price := fun _ _ => 5
  base_checkout_total := fun _ _ => 15

/-- Sample flat-rate engine (10% rate). -/
def sampleFlat : FlatRateEngine where
  linePrice := fun _ _ _ => (20, 22, 1 / 10)
  shippingPrice := fun _ _ => (10, 11, 1 / 10)

/-- Sample environment: `TAX_APP` strategy, charge taxes, prices entered
with tax. -/
def sampleEnv : Env where
  now := 100
  ttl := 50
  strategy := TAX_APP
  chargeTaxes := true
  pricesEnteredWithTax := true
  plugins := samplePlugins
  base := sampleBase
  flat := sampleFlat
  normalizeTaxRate := fun r => r / 100
  calculateTaxRate := fun _ => 0

/-- Sample checkout line: quantity 2, total 20 net / 22 gross. -/
def sampleLine : CheckoutLine where
  pk := 1
  quantity := 2
  total_price_net_amount := 20
  total_price_gross_amount := 22
  tax_rate := 1 / 10

/-- Second sample checkout line. -/
def sampleLine2 : CheckoutLine where
  pk := 2
  quantity := 1
  total_price_net_amount := 7
  total_price_gross_amount := 8
  tax_rate := 1 / 10

/-- Sample checkout: 2-decimal currency, not tax exempt, cache fresh until
timestamp 200. -/
def sampleCheckout : Checkout where
  currency := ⟨2⟩
  tax_exemption := false
  price_expiration := 200
  total_net_amount := 30
  total_gross_amount := 33
  subtotal_net_amount := 20
  subtotal_gross_amount := 22
  shipping_price_net_amount := 10
  shipping_price_gross_amount := 11
  shipping_tax_rate := 1 / 10
  gift_cards_balance := 5

/-- Sample consolidated `TaxData` with two line entries (rates in percent,
as the provider reports them). -/
def sampleTaxData : TaxData where
  shipping_price_net_amount := 8
  shipping_price_gross_amount := 9
  shipping_tax_rate := 23
  lines := [⟨30, 33, 23⟩, ⟨10, 11, 23⟩]

/-- C1: for a checkout whose `price_expiration` lies strictly in the
future, `fetch_checkout_prices_if_expired` with `force_update = false`
returns the input checkout and lines unchanged, with an empty effect trace:
no tax-provider or base-price collaborator call and no persistence write. -/
theorem freshness_short_circuit (env : Env) (c : Checkout)
    (lines : List CheckoutLine) (h : env.now < c.price_expiration) :
    fetch_checkout_prices_if_expired env c lines false = ⟨c, lines, []⟩ := by
  unfold fetch_checkout_prices_if_expired
  rw [if_pos ⟨rfl, h⟩]

/-- Witness for `freshness_short_circuit` at the sample inputs. -/
theorem freshness_short_circuit_witness :
    sampleEnv.now < sampleCheckout.price_expiration ∧
      fetch_checkout_prices_if_expired sampleEnv sampleCheckout [sampleLine] false =
        ⟨sampleCheckout, [sampleLine], []⟩ :=
  ⟨by decide,
    freshness_short_circuit sampleEnv sampleCheckout [sampleLine] (by decide)⟩

/-- C2: when `prices_entered_with_tax` is set and tax should not be charged
(`charge_taxes` disabled or the checkout tax exempt), recomputation first
computes tax with the selected strategy and then strips it: afterwards the
gross totals equal their net counterparts and the shipping and line tax
rates are zero. -/
theorem tax_removal_correctness (env : Env) (c : Checkout)
    (lines : List CheckoutLine) (force_update : Bool)
    (hp : env.pricesEnteredWithTax = true)
    (hc : (env.chargeTaxes && !c.tax_exemption) = false)
    (hrun : force_update = true ∨ c.price_expiration ≤ env.now) :
    recomputeCore env c lines =
      _remove_tax (_calculate_and_add_tax env c lines).1
        (_calculate_and_add_tax env c lines).2 ∧
    (let r := fetch_checkout_prices_if_expired env c lines force_update
     r.checkout.total_gross_amount = r.checkout.total_net_amount ∧
     r.checkout.subtotal_gross_amount = r.checkout.subtotal_net_amount ∧
     r.checkout.shipping_price_gross_amount = r.checkout.shipping_price_net_amount ∧
     r.checkout.shipping_tax_rate = 0 ∧
     ∀ l ∈ r.lines,
       l.total_price_gross_amount = l.total_price_net_amount ∧ l.tax_rate = 0) := by
  have hguard : ¬ (force_update = false ∧ env.now < c.price_expiration) := by
    rcases hrun with h | h
    · rintro ⟨h0, -⟩
      rw [h] at h0
      exact Bool.noConfusion h0
    · rintro ⟨-, h1⟩
      exact absurd h1 (not_lt.mpr h)
  have hcore : recomputeCore env c lines =
      _remove_tax (_calculate_and_add_tax env c lines).1
        (_calculate_and_add_tax env c lines).2 := by
    simp [recomputeCore, hp, hc]
  refine ⟨hcore, ?_⟩
  simp only [fetch_checkout_prices_if_expired, if_neg hguard, hcore]
  refine ⟨rfl, rfl, rfl, rfl, ?_⟩
  intro l hl
  simp only [_remove_tax, List.mem_map] at hl
  obtain ⟨y, -, rfl⟩ := hl
  exact ⟨rfl, rfl⟩

/-- Witness for `tax_removal_correctness`: forced recomputation with
`charge_taxes` disabled on the sample inputs. -/
theorem tax_removal_correctness_witness :
    (fetch_checkout_prices_if_expired { sampleEnv with chargeTaxes := false }
        sampleCheckout [sampleLine] true).checkout.total_gross_amount =
      (fetch_checkout_prices_if_expired { sampleEnv with chargeTaxes := false }
        sampleCheckout [sampleLine] true).checkout.total_net_amount ∧
    (fetch_checkout_prices_if_expired { sampleEnv with chargeTaxes := false }
        sampleCheckout [sampleLine] true).checkout.shipping_tax_rate = 0 := by
  have h := tax_removal_correctness { sampleEnv with chargeTaxes := false }
    sampleCheckout [sampleLine] true (by decide) (by decide) (Or.inl rfl)
  exact ⟨h.2.1, h.2.2.2.2.1⟩

/-- C4: in the `TAX_APP` strategy, an absent consolidated `TaxData` payload
leaves the state exactly as the per-call plugin pass set it. -/
theorem taxdata_absent_keeps_plugin_values (env : Env) (c : Checkout)
    (lines : List CheckoutLine)
    (hs : env.strategy = TAX_APP)
    (hn : env.plugins.get_taxes_for_checkout
        (_apply_tax_data_from_plugins env.plugins c lines).1
        (_apply_tax_data_from_plugins env.plugins c lines).2 = none) :
    _calculate_and_add_tax env c lines =
      _apply_tax_data_from_plugins env.plugins c lines := by
  simp only [_calculate_and_add_tax, if_pos hs, hn, _apply_tax_data]

/-- Witness for `taxdata_absent_keeps_plugin_values`: the sample plugins
return no `TaxData`. -/
theorem taxdata_absent_keeps_plugin_values_witness :
    _calculate_and_add_tax sampleEnv sampleCheckout [sampleLine] =
      _apply_tax_data_from_plugins sampleEnv.plugins sampleCheckout [sampleLine] :=
  taxdata_absent_keeps_plugin_values sampleEnv sampleCheckout [sampleLine] rfl rfl

/-- C6 counterexample: with an unrecognized tax calculation strategy,
`_calculate_and_add_tax` does not fail; it silently returns the state
untouched (the `if`/`elif` dispatch has no `else`). -/
theorem unknown_strategy_counterexample :
    _calculate_and_add_tax { sampleEnv with strategy := "AVATAX" } sampleCheckout
      [sampleLine] = (sampleCheckout, [sampleLine]) := by
  simp [_calculate_and_add_tax, TAX_APP, FLAT_RATES]

/-- C6 (amended): when the resolved strategy is neither `TAX_APP` nor
`FLAT_RATES`, `_calculate_and_add_tax` silently performs no tax
computation, leaving prices untouched; no error is raised. -/
theorem unknown_strategy_is_noop (env : Env) (c : Checkout)
    (lines : List CheckoutLine)
    (h1 : env.strategy ≠ TAX_APP) (h2 : env.strategy ≠ FLAT_RATES) :
    _calculate_and_add_tax env c lines = (c, lines) := by
  unfold _calculate_and_add_tax
  rw [if_neg h1, if_neg h2]

/-- Witness for `unknown_strategy_is_noop` at a concrete unrecognized
strategy. -/
theorem unknown_strategy_is_noop_witness :
    _calculate_and_add_tax { sampleEnv with strategy := "NONE" } sampleCheckout
      [sampleLine] = (sampleCheckout, [sampleLine]) :=
  unknown_strategy_is_noop { sampleEnv with strategy := "NONE" } sampleCheckout
    [sampleLine] (by decide) (by decide)

/-- C5: applying a `TaxData` whose line entries match the checkout lines in
number rewrites line `i` from entry `i` (quantized amounts, normalized
rate), then recomputes the subtotal as the quantized sum of the line totals
and the total as the quantized subtotal-plus-shipping. -/
theorem taxdata_positional_application (norm : ℚ → ℚ) (c : Checkout)
    (lines : List CheckoutLine) (td : TaxData)
    (hlen : td.lines.length = lines.length) :
    let r := _apply_tax_data norm c lines (some td)
    r.2.length = lines.length ∧
    (∀ (i : ℕ) (l : CheckoutLine) (e : TaxLineData),
      lines[i]? = some l → td.lines[i]? = some e →
      r.2[i]? = some { l with
        total_price_net_amount := quantizeAmount c.currency.exp e.total_net_amount,
        total_price_gross_amount := quantizeAmount c.currency.exp e.total_gross_amount,
        tax_rate := norm e.tax_rate }) ∧
    r.1.subtotal = _calculate_checkout_subtotal r.2 c.currency ∧
    r.1.total = quantize_price c.currency (addTM r.1.subtotal r.1.shipping_price) := by
  refine ⟨applyTaxDataLines_length norm c.currency lines td.lines, ?_, rfl, rfl⟩
  intro i l e hl he
  have h := applyTaxDataLines_getElem norm c.currency lines td.lines i
  rw [hl, he] at h
  exact h

/-- Witness for `taxdata_positional_application`: two lines, two entries;
entry 0 lands on line 0. -/
theorem taxdata_positional_application_witness :
    (_apply_tax_data (fun r => r / 100) sampleCheckout [sampleLine, sampleLine2]
        (some sampleTaxData)).2[0]? =
      some { sampleLine with
        total_price_net_amount := 30,
        total_price_gross_amount := 33,
        tax_rate := 23 / 100 } := by
  have h := taxdata_positional_application (fun r => r / 100) sampleCheckout
    [sampleLine, sampleLine2] sampleTaxData rfl
  have h0 := h.2.1 0 sampleLine ⟨30, 33, 23⟩ rfl rfl
  rw [h0]
  norm_num [sampleCheckout, quantizeAmount, roundHalfUp]

/-- C9: applying a `TaxData` whose entry count differs from the line count
rewrites only the zipped prefix (the shorter of the two), silently ignores
the excess on either side, keeps the leftover lines unchanged, and still
recomputes subtotal and total over all lines. -/
theorem taxdata_length_mismatch_truncation (norm : ℚ → ℚ) (c : Checkout)
    (lines : List CheckoutLine) (td : TaxData) :
    let r := _apply_tax_data norm c lines (some td)
    r.2.length = lines.length ∧
    (∀ i : ℕ, td.lines.length ≤ i → r.2[i]? = lines[i]?) ∧
    (∀ (i : ℕ) (l : CheckoutLine) (e : TaxLineData),
      lines[i]? = some l → td.lines[i]? = some e →
      r.2[i]? = some (applyTaxDataLine norm c.currency e l)) ∧
    r.1.subtotal = _calculate_checkout_subtotal r.2 c.currency ∧
    r.1.total = quantize_price c.currency (addTM r.1.subtotal r.1.shipping_price) := by
  refine ⟨applyTaxDataLines_length norm c.currency lines td.lines, ?_, ?_, rfl, rfl⟩
  · intro i hi
    have h := applyTaxDataLines_getElem norm c.currency lines td.lines i
    have hnone : td.lines[i]? = none := by
      exact List.getElem?_eq_none hi
    rw [hnone] at h
    cases hl : lines[i]? with
    | none => rw [hl] at h; exact h
    | some l => rw [hl] at h; exact h
  · intro i l e hl he
    have h := applyTaxDataLines_getElem norm c.currency lines td.lines i
    rw [hl, he] at h
    exact h

/-- Witness for `taxdata_length_mismatch_truncation`: one entry against two
lines leaves line 1 untouched. -/
theorem taxdata_length_mismatch_truncation_witness :
    (_apply_tax_data (fun r => r / 100) sampleCheckout [sampleLine, sampleLine2]
        (some { sampleTaxData with lines := [⟨30, 33, 23⟩] })).2[1]? =
      some sampleLine2 := by
  have h := taxdata_length_mismatch_truncation (fun r => r / 100) sampleCheckout
    [sampleLine, sampleLine2] { sampleTaxData with lines := [⟨30, 33, 23⟩] }
  have h1 := h.2.1 1 (by simp)
  rw [h1]
  rfl

/-- C3 counterexample: on the tax-free path the stored total is the
quantized base-provider checkout total, not subtotal plus shipping; with
`sampleBase` (line total 10, shipping 5, discounted checkout total 3) the
identity `total = quantize(subtotal + shipping_price)` fails. -/
theorem total_identity_counterexample :
    (_get_checkout_base_prices sampleBase (fun _ => 0) sampleCheckout [sampleLine]).1.total ≠
      quantize_price sampleCheckout.currency
        (addTM (_get_checkout_base_prices sampleBase (fun _ => 0) sampleCheckout
            [sampleLine]).1.subtotal
          (_get_checkout_base_prices sampleBase (fun _ => 0) sampleCheckout
            [sampleLine]).1.shipping_price) := by
  intro heq
  have hnet := congrArg TaxedMoney.net heq
  simp only [_get_checkout_base_prices, baseStateBeforeTotal, basePricesLineLoop,
    sampleBase, sampleCheckout, sampleLine, CheckoutLine.setTotalPrice,
    Checkout.setShippingPrice, Checkout.setSubtotal, Checkout.setTotal,
    Checkout.total, Checkout.subtotal, Checkout.shipping_price,
    CheckoutLine.total_price, quantize_price, quantizeAmount, roundHalfUp,
    addTM, zero_taxed_money, List.foldl, List.nil_append, List.length_nil] at hnet
  norm_num at hnet

/-- C3 (amended): the flat-rate path always stores
`total = quantize(subtotal + shipping_price)`; the tax-free path does so
exactly when the base provider's discounted checkout total coincides with
the stored subtotal plus shipping (no checkout-level discount drift). -/
theorem total_identity_amended (env : Env) (c : Checkout)
    (lines : List CheckoutLine)
    (ht : env.base.base_checkout_total
        (baseStateBeforeTotal env.base env.calculateTaxRate c lines).1
        (baseStateBeforeTotal env.base env.calculateTaxRate c lines).2 =
      (baseStateBeforeTotal env.base env.calculateTaxRate c lines).1.subtotal_net_amount +
        (baseStateBeforeTotal env.base env.calculateTaxRate c lines).1.shipping_price_net_amount) :
    ((update_checkout_prices_with_flat_rates env.flat c lines).1.total =
      quantize_price c.currency
        (addTM (update_checkout_prices_with_flat_rates env.flat c lines).1.subtotal
          (update_checkout_prices_with_flat_rates env.flat c lines).1.shipping_price)) ∧
    ((_get_checkout_base_prices env.base env.calculateTaxRate c lines).1.total =
      quantize_price c.currency
        (addTM (_get_checkout_base_prices env.base env.calculateTaxRate c lines).1.subtotal
          (_get_checkout_base_prices env.base env.calculateTaxRate c lines).1.shipping_price)) := by
  constructor
  · rfl
  · have hall : ∀ l ∈ basePricesLineLoop env.base env.calculateTaxRate c.currency [] lines,
        l.total_price_net_amount = l.total_price_gross_amount :=
      fun l hl => (basePricesLineLoop_total_shape env.base env.calculateTaxRate
        c.currency lines [] (by simp) l hl).2
    have hsub : (baseStateBeforeTotal env.base env.calculateTaxRate c lines).1.subtotal_net_amount =
        (baseStateBeforeTotal env.base env.calculateTaxRate c lines).1.subtotal_gross_amount :=
      net_eq_gross_foldl_addTM
        (basePricesLineLoop env.base env.calculateTaxRate c.currency [] lines)
        zero_taxed_money rfl hall
    have hship : (baseStateBeforeTotal env.base env.calculateTaxRate c lines).1.shipping_price_net_amount =
        (baseStateBeforeTotal env.base env.calculateTaxRate c lines).1.shipping_price_gross_amount :=
      rfl
    show (⟨quantizeAmount c.currency.exp (env.base.base_checkout_total
        (baseStateBeforeTotal env.base env.calculateTaxRate c lines).1
        (baseStateBeforeTotal env.base env.calculateTaxRate c lines).2),
      quantizeAmount c.currency.exp (env.base.base_checkout_total
        (baseStateBeforeTotal env.base env.calculateTaxRate c lines).1
        (baseStateBeforeTotal env.base env.calculateTaxRate c lines).2)⟩ : TaxedMoney) =
      ⟨quantizeAmount c.currency.exp
        ((baseStateBeforeTotal env.base env.calculateTaxRate c lines).1.subtotal_net_amount +
          (baseStateBeforeTotal env.base env.calculateTaxRate c lines).1.shipping_price_net_amount),
        quantizeAmount c.currency.exp
        ((baseStateBeforeTotal env.base env.calculateTaxRate c lines).1.subtotal_gross_amount +
          (baseStateBeforeTotal env.base env.calculateTaxRate c lines).1.shipping_price_gross_amount)⟩
    rw [ht, hsub, hship]

/-- Witness for `total_identity_amended`: with `sampleBase2` (no
checkout-level discount, total 15 = 10 + 5) the tax-free identity holds. -/
theorem total_identity_amended_witness :
    (_get_checkout_base_prices sampleBase2 (fun _ => 0) sampleCheckout
        [sampleLine]).1.total =
      quantize_price sampleCheckout.currency
        (addTM (_get_checkout_base_prices sampleBase2 (fun _ => 0) sampleCheckout
            [sampleLine]).1.subtotal
          (_get_checkout_base_prices sampleBase2 (fun _ => 0) sampleCheckout
            [sampleLine]).1.shipping_price) := by
  have h := total_identity_amended
    { sampleEnv with base := sampleBase2, calculateTaxRate := fun _ => 0 }
    sampleCheckout [sampleLine] ?_
  · exact h.2
  · show sampleBase2.base_checkout_total _ _ = _
    simp only [baseStateBeforeTotal, basePricesLineLoop, sampleBase2,
      sampleCheckout, sampleLine, CheckoutLine.setTotalPrice,
      Checkout.setShippingPrice, Checkout.setSubtotal, Checkout.total,
      Checkout.subtotal, Checkout.shipping_price, CheckoutLine.total_price,
      quantize_price, quantizeAmount, roundHalfUp, addTM, zero_taxed_money,
      List.foldl, List.nil_append, List.length_nil]
    norm_num

theorem zipWith_mem_quantized {α β : Type} (f : α → β → CheckoutLine)
    (cur : Currency) (hf : ∀ a b, QuantizedTM cur (f a b).total_price) :
    ∀ (as : List α) (bs : List β),
      ∀ l ∈ List.zipWith f as bs, QuantizedTM cur l.total_price := by
  intro as
  induction as with
  | nil => intro bs l hl; simp at hl
  | cons a as ih =>
    intro bs l hl
    cases bs with
    | nil => simp at hl
    | cons b bs =>
      rcases List.mem_cons.mp hl with rfl | hl
      · exact hf a b
      · exact ih bs l hl

theorem applyTaxDataLines_quantized (norm : ℚ → ℚ) (cur : Currency) :
    ∀ (ls : List CheckoutLine) (es : List TaxLineData),
      (∀ l ∈ ls, QuantizedTM cur l.total_price) →
      ∀ l ∈ applyTaxDataLines norm cur ls es, QuantizedTM cur l.total_price := by
  intro ls
  induction ls with
  | nil => intro es hls l hl; cases es <;> simp [applyTaxDataLines] at hl
  | cons x xs ih =>
    intro es hls l hl
    cases es with
    | nil => exact hls l hl
    | cons e es =>
      rcases List.mem_cons.mp hl with rfl | hl
      · exact quantizedTM_iff.mpr
          ⟨isQuantized_quantizeAmount _ _, isQuantized_quantizeAmount _ _⟩
      · exact ih es (fun y hy => hls y (List.mem_cons_of_mem x hy)) l hl

theorem get_checkout_base_prices_quantized (B : BasePriceProvider)
    (ctr : TaxedMoney → ℚ) (c : Checkout) (lines : List CheckoutLine) :
    QuantizedTM c.currency (_get_checkout_base_prices B ctr c lines).1.total ∧
    QuantizedTM c.currency (_get_checkout_base_prices B ctr c lines).1.subtotal ∧
    QuantizedTM c.currency (_get_checkout_base_prices B ctr c lines).1.shipping_price ∧
    ∀ l ∈ (_get_checkout_base_prices B ctr c lines).2,
      QuantizedTM c.currency l.total_price := by
  refine ⟨quantizedTM_quantize_price c.currency _, ?_,
    quantizedTM_quantize_price c.currency _, ?_⟩
  · exact quantizedTM_foldl_addTM c.currency
      (basePricesLineLoop B ctr c.currency [] lines)
      zero_taxed_money (quantizedTM_zero c.currency)
      fun l hl => (basePricesLineLoop_total_shape B ctr
        c.currency lines [] (by simp) l hl).1
  · intro l hl
    exact (basePricesLineLoop_total_shape B ctr c.currency lines [] (by simp) l hl).1

theorem apply_tax_data_from_plugins_quantized (P : Plugins) (c : Checkout)
    (lines : List CheckoutLine) :
    QuantizedTM c.currency (_apply_tax_data_from_plugins P c lines).1.total ∧
    QuantizedTM c.currency (_apply_tax_data_from_plugins P c lines).1.subtotal ∧
    QuantizedTM c.currency (_apply_tax_data_from_plugins P c lines).1.shipping_price ∧
    ∀ l ∈ (_apply_tax_data_from_plugins P c lines).2,
      QuantizedTM c.currency l.total_price :=
  ⟨quantizedTM_quantize_price c.currency _, quantizedTM_quantize_price c.currency _,
    quantizedTM_quantize_price c.currency _,
    fun l hl => pluginsLineLoop_total_quantized P c.currency c lines [] (by simp) l hl⟩

theorem apply_tax_data_quantized (norm : ℚ → ℚ) (c : Checkout)
    (lines0 : List CheckoutLine) (td : TaxData)
    (hls : ∀ l ∈ lines0, QuantizedTM c.currency l.total_price) :
    QuantizedTM c.currency (_apply_tax_data norm c lines0 (some td)).1.total ∧
    QuantizedTM c.currency (_apply_tax_data norm c lines0 (some td)).1.subtotal ∧
    QuantizedTM c.currency (_apply_tax_data norm c lines0 (some td)).1.shipping_price ∧
    ∀ l ∈ (_apply_tax_data norm c lines0 (some td)).2,
      QuantizedTM c.currency l.total_price :=
  ⟨quantizedTM_quantize_price c.currency _, quantizedTM_quantize_price c.currency _,
    quantizedTM_quantize_price c.currency _,
    fun l hl => applyTaxDataLines_quantized norm c.currency lines0 td.lines hls l hl⟩

theorem update_flat_rates_quantized (F : FlatRateEngine) (c : Checkout)
    (lines : List CheckoutLine) :
    QuantizedTM c.currency (update_checkout_prices_with_flat_rates F c lines).1.total ∧
    QuantizedTM c.currency (update_checkout_prices_with_flat_rates F c lines).1.subtotal ∧
    QuantizedTM c.currency
      (update_checkout_prices_with_flat_rates F c lines).1.shipping_price ∧
    ∀ l ∈ (update_checkout_prices_with_flat_rates F c lines).2,
      QuantizedTM c.currency l.total_price := by
  refine ⟨quantizedTM_quantize_price c.currency _, quantizedTM_quantize_price c.currency _,
    quantizedTM_quantize_price c.currency _, ?_⟩
  intro l hl
  refine zipWith_mem_quantized _ c.currency ?_ _ _ l hl
  intro i l0
  exact quantizedTM_iff.mpr
    ⟨isQuantized_quantizeAmount _ _, isQuantized_quantizeAmount _ _⟩

theorem remove_tax_quantized (cur : Currency) (c : Checkout)
    (lines : List CheckoutLine)
    (h1 : QuantizedTM cur c.total) (h2 : QuantizedTM cur c.subtotal)
    (h3 : QuantizedTM cur c.shipping_price)
    (hls : ∀ l ∈ lines, QuantizedTM cur l.total_price) :
    QuantizedTM cur (_remove_tax c lines).1.total ∧
    QuantizedTM cur (_remove_tax c lines).1.subtotal ∧
    QuantizedTM cur (_remove_tax c lines).1.shipping_price ∧
    ∀ l ∈ (_remove_tax c lines).2, QuantizedTM cur l.total_price := by
  refine ⟨?_, ?_, ?_, ?_⟩
  · have h := (quantizedTM_iff.mp h1).1
    exact quantizedTM_iff.mpr ⟨h, h⟩
  · have h := (quantizedTM_iff.mp h2).1
    exact quantizedTM_iff.mpr ⟨h, h⟩
  · have h := (quantizedTM_iff.mp h3).1
    exact quantizedTM_iff.mpr ⟨h, h⟩
  · intro l hl
    simp only [_remove_tax, List.mem_map] at hl
    obtain ⟨y, hy, rfl⟩ := hl
    have h := (quantizedTM_iff.mp (hls y hy)).1
    exact quantizedTM_iff.mpr ⟨h, h⟩

theorem calculate_and_add_tax_quantized (env : Env) (c : Checkout)
    (lines : List CheckoutLine)
    (hstrat : env.strategy = TAX_APP ∨ env.strategy = FLAT_RATES) :
    QuantizedTM c.currency (_calculate_and_add_tax env c lines).1.total ∧
    QuantizedTM c.currency (_calculate_and_add_tax env c lines).1.subtotal ∧
    QuantizedTM c.currency (_calculate_and_add_tax env c lines).1.shipping_price ∧
    ∀ l ∈ (_calculate_and_add_tax env c lines).2,
      QuantizedTM c.currency l.total_price := by
  rcases hstrat with hs | hs
  · have hplug := apply_tax_data_from_plugins_quantized env.plugins c lines
    unfold _calculate_and_add_tax
    rw [if_pos hs]
    cases htd : env.plugins.get_taxes_for_checkout
        (_apply_tax_data_from_plugins env.plugins c lines).1
        (_apply_tax_data_from_plugins env.plugins c lines).2 with
    | none =>
      simp only [htd, _apply_tax_data]
      exact hplug
    | some td =>
      simp only [htd]
      exact apply_tax_data_quantized env.normalizeTaxRate
        (_apply_tax_data_from_plugins env.plugins c lines).1
        (_apply_tax_data_from_plugins env.plugins c lines).2 td hplug.2.2.2
  · unfold _calculate_and_add_tax
    rw [if_neg (by rw [hs]; intro h; exact absurd h.symm (by simp [TAX_APP, FLAT_RATES])),
      if_pos hs]
    exact update_flat_rates_quantized env.flat c lines

theorem recomputeCore_quantized (env : Env) (c : Checkout)
    (lines : List CheckoutLine)
    (hstrat : env.strategy = TAX_APP ∨ env.strategy = FLAT_RATES) :
    QuantizedTM c.currency (recomputeCore env c lines).1.total ∧
    QuantizedTM c.currency (recomputeCore env c lines).1.subtotal ∧
    QuantizedTM c.currency (recomputeCore env c lines).1.shipping_price ∧
    ∀ l ∈ (recomputeCore env c lines).2, QuantizedTM c.currency l.total_price := by
  have hcalc := calculate_and_add_tax_quantized env c lines hstrat
  have hbase := get_checkout_base_prices_quantized env.base env.calculateTaxRate c lines
  cases hb : env.pricesEnteredWithTax with
  | true =>
    cases hsc : env.chargeTaxes && !c.tax_exemption with
    | true =>
      have hcore : recomputeCore env c lines = _calculate_and_add_tax env c lines := by
        simp [recomputeCore, hb, hsc]
      rw [hcore]
      exact hcalc
    | false =>
      have hcore : recomputeCore env c lines =
          _remove_tax (_calculate_and_add_tax env c lines).1
            (_calculate_and_add_tax env c lines).2 := by
        simp [recomputeCore, hb, hsc]
      rw [hcore]
      exact remove_tax_quantized c.currency
        (_calculate_and_add_tax env c lines).1
        (_calculate_and_add_tax env c lines).2
        hcalc.1 hcalc.2.1 hcalc.2.2.1 hcalc.2.2.2
  | false =>
    cases hsc : env.chargeTaxes && !c.tax_exemption with
    | true =>
      have hcore : recomputeCore env c lines = _calculate_and_add_tax env c lines := by
        simp [recomputeCore, hb, hsc]
      rw [hcore]
      exact hcalc
    | false =>
      have hcore : recomputeCore env c lines =
          _get_checkout_base_prices env.base env.calculateTaxRate c lines := by
        simp [recomputeCore, hb, hsc]
      rw [hcore]
      exact hbase

/-- C7: every monetary value stored during recomputation under a recognized
strategy and every monetary value returned by the read operations is a
fixed point of quantization at the checkout currency's precision: the
tax-free path's stores, the plugin per-call path's stores, the flat-rate
path's stores, the consolidated-TaxData path's stores (its untouched
leftover lines carry the already-quantized per-call values through), the
full recomputation branch, and the values returned by `checkout_total`,
`checkout_shipping_price`, `checkout_subtotal`, `checkout_line_total` and
`checkout_line_unit_price` (the tax-free subtotal is stored as a plain sum,
but a sum of quantized line totals is itself quantized). -/
theorem monetary_values_quantized (env : Env) (c : Checkout)
    (lines : List CheckoutLine)
    (hstrat : env.strategy = TAX_APP ∨ env.strategy = FLAT_RATES) :
    (let r := _get_checkout_base_prices env.base env.calculateTaxRate c lines
     QuantizedTM c.currency r.1.total ∧ QuantizedTM c.currency r.1.subtotal ∧
     QuantizedTM c.currency r.1.shipping_price ∧
     ∀ l ∈ r.2, QuantizedTM c.currency l.total_price) ∧
    (let r := _apply_tax_data_from_plugins env.plugins c lines
     QuantizedTM c.currency r.1.total ∧ QuantizedTM c.currency r.1.subtotal ∧
     QuantizedTM c.currency r.1.shipping_price ∧
     ∀ l ∈ r.2, QuantizedTM c.currency l.total_price) ∧
    (let r := update_checkout_prices_with_flat_rates env.flat c lines
     QuantizedTM c.currency r.1.total ∧ QuantizedTM c.currency r.1.subtotal ∧
     QuantizedTM c.currency r.1.shipping_price ∧
     ∀ l ∈ r.2, QuantizedTM c.currency l.total_price) ∧
    (∀ (td : TaxData) (lines0 : List CheckoutLine),
      (∀ l ∈ lines0, QuantizedTM c.currency l.total_price) →
      let r := _apply_tax_data env.normalizeTaxRate c lines0 (some td)
      QuantizedTM c.currency r.1.total ∧ QuantizedTM c.currency r.1.subtotal ∧
      QuantizedTM c.currency r.1.shipping_price ∧
      ∀ l ∈ r.2, QuantizedTM c.currency l.total_price) ∧
    (let r := recomputeCore env c lines
     QuantizedTM c.currency r.1.total ∧ QuantizedTM c.currency r.1.subtotal ∧
     QuantizedTM c.currency r.1.shipping_price ∧
     ∀ l ∈ r.2, QuantizedTM c.currency l.total_price) ∧
    QuantizedTM c.currency (checkout_total env c lines) ∧
    QuantizedTM c.currency (checkout_shipping_price env c lines) ∧
    QuantizedTM c.currency (checkout_subtotal env c lines) ∧
    (∀ (pk : ℕ) (v : TaxedMoney),
      checkout_line_total env c lines pk = some v → QuantizedTM c.currency v) ∧
    (∀ (pk : ℕ) (v : TaxedMoney),
      checkout_line_unit_price env c lines pk = some v →
        QuantizedTM c.currency v) := by
  refine ⟨get_checkout_base_prices_quantized env.base env.calculateTaxRate c lines,
    apply_tax_data_from_plugins_quantized env.plugins c lines,
    update_flat_rates_quantized env.flat c lines,
    fun td lines0 hls => apply_tax_data_quantized env.normalizeTaxRate c lines0 td hls,
    recomputeCore_quantized env c lines hstrat,
    quantizedTM_quantize_price c.currency _,
    quantizedTM_quantize_price c.currency _,
    quantizedTM_quantize_price c.currency _,
    ?_, ?_⟩
  · intro pk v hv
    simp only [checkout_line_total] at hv
    cases hfind : _find_checkout_line_info
        (fetch_checkout_prices_if_expired env c lines false).lines pk with
    | none => simp [hfind] at hv
    | some line =>
      simp only [hfind, Option.some.injEq] at hv
      rw [← hv]
      exact quantizedTM_quantize_price c.currency _
  · intro pk v hv
    simp only [checkout_line_unit_price] at hv
    cases hfind : _find_checkout_line_info
        (fetch_checkout_prices_if_expired env c lines false).lines pk with
    | none => simp [hfind] at hv
    | some line =>
      simp only [hfind] at hv
      by_cases hq : line.quantity = 0
      · rw [if_pos hq] at hv
        simp at hv
      · rw [if_neg hq] at hv
        simp only [Option.some.injEq] at hv
        rw [← hv]
        exact quantizedTM_quantize_price c.currency _

/-- Witness for `monetary_values_quantized`: the sample environment uses a
recognized strategy, and the `checkout_total` value on the sample inputs is
a quantization fixed point. -/
theorem monetary_values_quantized_witness :
    QuantizedTM sampleCheckout.currency
      (checkout_total sampleEnv sampleCheckout [sampleLine]) :=
  (monetary_values_quantized sampleEnv sampleCheckout [sampleLine]
    (Or.inl rfl)).2.2.2.2.2.1

/-- C8: `calculate_checkout_total_with_gift_cards` returns the Python `max`
of (fresh total minus gift-card balance) and zero money; its gross amount
is never negative (so the result is never below zero in the `TaxedMoney`
ordering the code uses), and the cached checkout total read by
`checkout_total` has no balance subtracted from it. -/
theorem gift_cards_total_clamped (env : Env) (c : Checkout)
    (lines : List CheckoutLine) :
    calculate_checkout_total_with_gift_cards env c lines =
      pyMaxTM (subMoney (checkout_total env c lines) c.gift_cards_balance)
        zero_taxed_money ∧
    0 ≤ (calculate_checkout_total_with_gift_cards env c lines).gross ∧
    ¬ ltTM (calculate_checkout_total_with_gift_cards env c lines) zero_taxed_money ∧
    checkout_total env c lines =
      quantize_price c.currency
        (fetch_checkout_prices_if_expired env c lines false).checkout.total := by
  have hg : 0 ≤ (calculate_checkout_total_with_gift_cards env c lines).gross := by
    unfold calculate_checkout_total_with_gift_cards pyMaxTM
    by_cases h : ltTM (subMoney (checkout_total env c lines) c.gift_cards_balance)
      zero_taxed_money
    · rw [if_pos h]
      exact le_refl _
    · rw [if_neg h]
      exact not_lt.mp h
  exact ⟨rfl, hg, not_lt.mpr hg, rfl⟩

/-- Witness for `gift_cards_total_clamped` at the sample inputs. -/
theorem gift_cards_total_clamped_witness :
    0 ≤ (calculate_checkout_total_with_gift_cards sampleEnv sampleCheckout
      [sampleLine]).gross :=
  (gift_cards_total_clamped sampleEnv sampleCheckout [sampleLine]).2.1

/-- C10: `checkout_line_unit_price` divides the freshness-ensured line
total by the line quantity and quantizes; the division is unguarded, so a
zero quantity makes the operation fail (no defined result) rather than
produce a value. -/
theorem line_unit_price_division (env : Env) (c : Checkout)
    (lines : List CheckoutLine) (pk : ℕ) (line : CheckoutLine)
    (hfind : _find_checkout_line_info
        (fetch_checkout_prices_if_expired env c lines false).lines pk = some line) :
    (0 < line.quantity →
      checkout_line_unit_price env c lines pk =
        some (quantize_price c.currency (divTM line.total_price line.quantity))) ∧
    (line.quantity = 0 → checkout_line_unit_price env c lines pk = none) := by
  unfold checkout_line_unit_price
  simp only [hfind]
  constructor
  · intro hq
    rw [if_neg (Nat.pos_iff_ne_zero.mp hq)]
  · intro hq
    rw [if_pos hq]

/-- Witness for `line_unit_price_division`: the sample line (quantity 2,
total 20/22) yields a unit price of 10/11. -/
theorem line_unit_price_division_witness :
    checkout_line_unit_price sampleEnv sampleCheckout [sampleLine] 1 =
      some ⟨10, 11⟩ := by
  have h := (line_unit_price_division sampleEnv sampleCheckout [sampleLine] 1
    sampleLine ?_).1 (by decide)
  · rw [h]
    simp only [sampleLine, sampleCheckout, CheckoutLine.total_price, divTM,
      quantize_price, quantizeAmount, roundHalfUp]
    norm_num
  · show _find_checkout_line_info
      (fetch_checkout_prices_if_expired sampleEnv sampleCheckout [sampleLine]
        false).lines 1 = some sampleLine
    rw [freshness_short_circuit sampleEnv sampleCheckout [sampleLine] (by decide)]
    rfl
